import Mathlib

/-!
Shallow embedding of the WowUp addon provider
(src/wowup-electron/src/app/addon-providers/wowup-addon-provider.ts).

Conventions of the embedding:
- TypeScript fields that the code guards with optional chaining or `??`
  are modelled as `Option`; fields the code reads unguarded are total.
- Fallible code (TypeScript `throw` / TypeError on reading a property of
  `undefined`) is modelled with `Except String`.
- Remote responses and scanner output are external inputs; the embedded
  operations take them as explicit parameters (the fetch already done).
- Nondeterministic fields of the built entity (`id: uuidv4()`,
  `installedAt: new Date()`) are omitted: no claim mentions them.
-/

namespace WowUp

/-- Catalog game variant (models/wowup-api/wow-game-type). -/
inductive WowGameType where
  | Retail
  | Classic
  | BurningCrusade
  deriving DecidableEq, Repr

/-- Modelled from the spec: the WowClientType enum declaration
(common/warcraft/wow-client-type) is outside src/. Constructors follow the
spec variant mapping (classic-era; classic, classic-PTR, classic-beta;
retail, retail-PTR, beta), plus `None` standing for any unrecognized
value hitting the default branch. -/
inductive WowClientType where
  | Retail
  | Classic
  | RetailPtr
  | ClassicPtr
  | Beta
  | ClassicEra
  | ClassicBeta
  | None
  deriving DecidableEq, Repr

/-- Addon release channel (common/wowup/models AddonChannelType). -/
inductive AddonChannelType where
  | Stable
  | Beta
  | Alpha
  deriving DecidableEq, Repr

/-- One folder declared by a remote release (addonFolders entries). -/
structure ReleaseAddonFolder where
  folder_name : String
  fingerprint : String
  deriving DecidableEq, Repr

/-- One game-version entry of a remote release
(WowUpAddonReleaseRepresentation.game_versions entries). `title` and
`authors` are read through optional chaining with a fallback, so they are
`Option`; `version` and `interface` are read directly. -/
structure WowUpGameVersionRepresentation where
  game_type : WowGameType
  version : String
  interface : String
  title : Option String
  authors : Option String
  deriving DecidableEq, Repr

/-- A remote release (WowUpAddonReleaseRepresentation). `body` is guarded
by `?? ""` in getChangelog, so it is `Option`. -/
structure WowUpAddonReleaseRepresentation where
  id : Nat
  tag_name : String
  prerelease : Bool
  published_at : String
  download_url : String
  body : Option String
  game_versions : List WowUpGameVersionRepresentation
  addonFolders : List ReleaseAddonFolder
  deriving DecidableEq, Repr

/-- A fingerprint match entry of the fingerprint lookup response
(GetAddonsByFingerprintResponse.exactMatches entries), with the fields the
provider reads. -/
structure WowUpExactMatch where
  id : Nat
  repository : String
  repository_name : String
  owner_name : String
  image_url : String
  source : String
  funding_links : List String
  matched_release : WowUpAddonReleaseRepresentation
  deriving DecidableEq, Repr

/-- Response of the batched fingerprint lookup. -/
structure GetAddonsByFingerprintResponse where
  exactMatches : List WowUpExactMatch
  deriving DecidableEq, Repr

/-- A catalog entry (WowUpAddonRepresentation) with the fields the
provider reads. `description` feeds an optional summary. -/
structure WowUpAddonRepresentation where
  id : Nat
  repository_name : String
  owner_name : String
  repository : String
  image_url : String
  owner_image_url : String
  description : Option String
  total_download_count : Nat
  funding_links : List String
  releases : List WowUpAddonReleaseRepresentation
  deriving DecidableEq, Repr

/-- Batch response of getAll (GetAddonBatchResponse). -/
structure GetAddonBatchResponse where
  addons : List WowUpAddonRepresentation
  deriving DecidableEq, Repr

/-- Response of the single-release lookup (WowUpGetAddonReleaseResponse);
getChangelog reads it as addon?.release?.body. -/
structure WowUpGetAddonReleaseResponse where
  release : Option WowUpAddonReleaseRepresentation
  deriving DecidableEq, Repr

/-- Local scan result (AppWowUpScanResult): path, fingerprint and folder
name from the external scanner, plus the exactMatch slot that scan fills. -/
structure AppWowUpScanResult where
  path : String
  fingerprint : String
  folderName : String
  exactMatch : Option WowUpExactMatch
  deriving DecidableEq, Repr

/-- Target installation (WowInstallation) with the fields the provider
reads: clientType and id. -/
structure WowInstallation where
  id : String
  clientType : WowClientType
  deriving DecidableEq, Repr

/-- The resolved addon entity (common/entities/addon Addon) with the
fields getAddon assigns, minus the nondeterministic ones (uuid, dates). -/
structure Addon where
  author : String
  name : String
  channelType : AddonChannelType
  autoUpdateEnabled : Bool
  clientType : WowClientType
  downloadUrl : String
  externalUrl : String
  externalId : String
  gameVersion : String
  installedFolders : String
  installedFolderList : List String
  installedVersion : String
  installedExternalReleaseId : String
  isIgnored : Bool
  latestVersion : String
  providerName : String
  providerSource : String
  thumbnailUrl : String
  fundingLinks : List String
  isLoadOnDemand : Bool
  releasedAt : String
  externalChannel : String
  latestChangelog : Option String
  externalLatestReleaseId : String
  installationId : String
  deriving DecidableEq, Repr

/-- A local addon folder handed to scan (AddonFolder): its path and the
matchingAddon slot that scan fills. -/
structure AddonFolder where
  path : String
  matchingAddon : Option Addon
  deriving DecidableEq, Repr

/-- Item-level error kind of getAll (SourceRemovedAddonError addonId). -/
inductive ResolutionError where
  | sourceRemoved (addonId : String)
  deriving DecidableEq, Repr

/-- One file entry of a search result (AddonSearchResultFile). -/
structure AddonSearchResultFile where
  channelType : AddonChannelType
  downloadUrl : String
  folders : List String
  gameVersion : String
  releaseDate : String
  version : String
  dependencies : List String
  changelog : Option String
  externalId : String
  title : Option String
  authors : Option String
  deriving DecidableEq, Repr

/-- A catalog search result (AddonSearchResult) with the fields
getSearchResult assigns, minus releasedAt (new Date()). -/
structure AddonSearchResult where
  author : String
  externalId : String
  externalUrl : String
  name : String
  providerName : String
  thumbnailUrl : String
  downloadCount : Nat
  files : List AddonSearchResultFile
  screenshotUrl : String
  screenshotUrls : List String
  summary : Option String
  fundingLinks : List String
  deriving DecidableEq, Repr

/-- Result of getAll (GetAllResult from addon-provider). -/
structure GetAllResult where
  errors : List ResolutionError
  searchResults : List AddonSearchResult
  deriving DecidableEq, Repr

/-- AppConfig.wowUpHubUrl: externally supplied base URL; its concrete
value is immaterial to every claim. -/
def API_URL : String := "https://hub.wowup.io"

/-- CHANGELOG_CACHE_TTL_SEC = 30 * 60. -/
def CHANGELOG_CACHE_TTL_SEC : Nat := 30 * 60

/-- ADDON_PROVIDER_HUB (common/constants): the provider name. -/
def ADDON_PROVIDER_HUB : String := "WowUpHub"

/-- Modelled from the spec: getGameVersion (utils/addon.utils) is outside
src/; it renders an optional interface version string. No claim depends on
its value, so it is modelled as the identity with empty-string default. -/
def getGameVersion (interfaceVersion : Option String) : String :=
  interfaceVersion.getD ""

/-- getEnumName(AddonChannelType, channelType): the enum member name. -/
def getEnumName : AddonChannelType → String
  | .Stable => "Stable"
  | .Beta => "Beta"
  | .Alpha => "Alpha"

/-- getWowGameType: client kind to catalog variant (switch with Retail as
the default branch). -/
def getWowGameType : WowClientType → WowGameType
  | .ClassicEra => .Classic
  | .Classic => .BurningCrusade
  | .ClassicPtr => .BurningCrusade
  | .ClassicBeta => .BurningCrusade
  | _ => .Retail

/-- hasMatchingFingerprint: the release declares some folder whose
fingerprint equals the scan result fingerprint. -/
def hasMatchingFingerprint (scanResult : AppWowUpScanResult)
    (release : WowUpAddonReleaseRepresentation) : Bool :=
  release.addonFolders.any (fun addonFolder => addonFolder.fingerprint == scanResult.fingerprint)

/-- getMatchingVersion: the first game-version entry whose game_type is
the requested one (at most one should exist, per the source comment). -/
def getMatchingVersion (release : WowUpAddonReleaseRepresentation)
    (gameType : WowGameType) : Option WowUpGameVersionRepresentation :=
  release.game_versions.find? (fun gv => gv.game_type == gameType)

/-- hasGameType: getMatchingVersion is defined. -/
def hasGameType (release : WowUpAddonReleaseRepresentation)
    (clientType : WowGameType) : Bool :=
  (getMatchingVersion release clientType).isSome

/-- getAddonReleaseChannel: prerelease to Beta, else Stable. -/
def getAddonReleaseChannel (file : WowUpAddonReleaseRepresentation) : AddonChannelType :=
  if file.prerelease then AddonChannelType.Beta else AddonChannelType.Stable

/-- How an outbound fetch is issued: straight through the circuit-breaker
client, or through a CachingService.transaction(key, fn, ttl) wrapping an
inner circuit-breaker call. -/
inductive FetchRoute where
  | circuitBreakerGet (url : String)
  | circuitBreakerPost (url : String)
  | cacheTransaction (key : String) (ttlSec : Nat) (inner : FetchRoute)
  deriving DecidableEq, Repr

/-- Written from the spec words, for the refinement comparison of C4: a
fetch is a cached fetch when it goes through the response cache. -/
def isCachedFetch : FetchRoute → Bool
  | .cacheTransaction _ _ _ => true
  | _ => false

/-- getAddonsByFingerprints issues its POST straight on the circuit
breaker (the fingerprint list travels in the body, not the URL). -/
def getAddonsByFingerprintsRoute (_fingerprints : List String) : FetchRoute :=
  .circuitBreakerPost (API_URL ++ "/addons/fingerprint")

/-- String value of a WowGameType member (it is a string enum in the
wire contract). -/
def gameTypeName : WowGameType → String
  | .Retail => "retail"
  | .Classic => "classic"
  | .BurningCrusade => "burningCrusade"

/-- getFeaturedAddons routes through the cache keyed by the URL string. -/
def getFeaturedAddonsRoute (gameType : WowGameType) : FetchRoute :=
  let url := API_URL ++ "/addons/featured/" ++ gameTypeName gameType ++ "?count=60"
  .cacheTransaction url CHANGELOG_CACHE_TTL_SEC (.circuitBreakerGet url)

/-- getReleaseById routes through the cache keyed by the URL string. -/
def getReleaseByIdRoute (addonId releaseId : String) : FetchRoute :=
  let url := API_URL ++ "/addons/" ++ addonId ++ "/releases/" ++ releaseId
  .cacheTransaction url CHANGELOG_CACHE_TTL_SEC (.circuitBreakerGet url)

/-- getSearchResultFile: one file entry from a release, for a variant. -/
def getSearchResultFile (release : WowUpAddonReleaseRepresentation)
    (gameType : WowGameType) : AddonSearchResultFile :=
  let matchingVersion := getMatchingVersion release gameType
  let version := (matchingVersion.map (fun mv => mv.version)).getD release.tag_name
  { channelType := getAddonReleaseChannel release
    downloadUrl := release.download_url
    folders := []
    gameVersion := getGameVersion (matchingVersion.map (fun mv => mv.interface))
    releaseDate := release.published_at
    version := version
    dependencies := []
    changelog := release.body
    externalId := toString release.id
    title := matchingVersion.bind (fun mv => mv.title)
    authors := matchingVersion.bind (fun mv => mv.authors) }

/-- filterReleases: releases declaring a game version of the variant. -/
def filterReleases (representation : WowUpAddonRepresentation)
    (gameType : WowGameType) : List WowUpAddonReleaseRepresentation :=
  representation.releases.filter
    (fun release => release.game_versions.any (fun gv => gv.game_type == gameType))

/-- getSearchResult: catalog entry to search result. The thumbnail uses
the JavaScript falsy-or: owner_image_url when image_url is empty. -/
def getSearchResult (representation : WowUpAddonRepresentation)
    (gameType : WowGameType) : AddonSearchResult :=
  let clientReleases := filterReleases representation gameType
  let searchResultFiles := clientReleases.map (fun release => getSearchResultFile release gameType)
  let name := (searchResultFiles.head?.bind (fun f => f.title)).getD representation.repository_name
  let authors := (searchResultFiles.head?.bind (fun f => f.authors)).getD representation.owner_name
  { author := authors
    externalId := toString representation.id
    externalUrl := representation.repository
    name := name
    providerName := ADDON_PROVIDER_HUB
    thumbnailUrl := if representation.image_url.isEmpty
      then representation.owner_image_url else representation.image_url
    downloadCount := representation.total_download_count
    files := searchResultFiles
    screenshotUrl := ""
    screenshotUrls := []
    summary := representation.description
    fundingLinks := representation.funding_links }

/-- getAll, after the batch POST returned: builds a search result per
returned addon, then one SourceRemoved error per requested id matching no
search result externalId. The remote response is an explicit input. -/
def getAll (clientType : WowClientType) (addonIds : List String)
    (response : GetAddonBatchResponse) : GetAllResult :=
  let gameType := getWowGameType clientType
  let searchResults := response.addons.map (fun addon => getSearchResult addon gameType)
  let missingAddonIds := addonIds.filter
    (fun addonId => (searchResults.find? (fun sr => sr.externalId == addonId)).isNone)
  let deletedErrors := missingAddonIds.map (fun addonId => ResolutionError.sourceRemoved addonId)
  { errors := deletedErrors, searchResults := searchResults }

/-- getChangelog, with the outcome of the awaited getReleaseById as an
explicit input: a failed lookup is caught and yields the empty string, and
a missing release or body falls back to the empty string too. -/
def getChangelog (fetched : Except String WowUpGetAddonReleaseResponse) : String :=
  match fetched with
  | .error _ => ""
  | .ok addon => ((addon.release.bind (fun r => r.body)).getD "")

/-- The single return expression of getAddon, once a defined
matchingVersion is at hand: every field as assigned in the source. -/
def buildAddonEntity (installation : WowInstallation)
    (addonChannelType : AddonChannelType) (exactMatch : WowUpExactMatch)
    (matchingVersion : WowUpGameVersionRepresentation) : Addon :=
  let folders := exactMatch.matched_release.addonFolders.map (fun af => af.folder_name)
  let folderList := String.intercalate ", " folders
  let channelType := addonChannelType
  let name := matchingVersion.title.getD exactMatch.repository_name
  let version := matchingVersion.version
  let authors := matchingVersion.authors.getD exactMatch.owner_name
  let interfaceVer := matchingVersion.interface
  { author := authors
    name := name
    channelType := channelType
    autoUpdateEnabled := false
    clientType := installation.clientType
    downloadUrl := exactMatch.matched_release.download_url
    externalUrl := exactMatch.repository
    externalId := toString exactMatch.id
    gameVersion := getGameVersion (some interfaceVer)
    installedFolders := folderList
    installedFolderList := folders
    installedVersion := version
    installedExternalReleaseId := toString exactMatch.matched_release.id
    isIgnored := false
    latestVersion := version
    providerName := ADDON_PROVIDER_HUB
    providerSource := exactMatch.source
    thumbnailUrl := exactMatch.image_url
    fundingLinks := exactMatch.funding_links
    isLoadOnDemand := false
    releasedAt := exactMatch.matched_release.published_at
    externalChannel := getEnumName channelType
    latestChangelog := exactMatch.matched_release.body
    externalLatestReleaseId := toString exactMatch.matched_release.id
    installationId := installation.id }

/-- getAddon: builds the entity for a scan result. Reading matched_release
of an absent exactMatch throws; when no game version matches the target
variant the code falls back to game_versions[0], and the console.warn of
that branch reads matchingVersion.interface, which throws when the release
declares no game version at all. Throws are modelled as Except errors. -/
def getAddon (installation : WowInstallation)
    (addonChannelType : AddonChannelType)
    (scanResult : AppWowUpScanResult) : Except String Addon :=
  match scanResult.exactMatch with
  | none => .error "TypeError: cannot read matched_release of undefined"
  | some exactMatch =>
    let gameType := getWowGameType installation.clientType
    match getMatchingVersion exactMatch.matched_release gameType with
    | some matchingVersion =>
      .ok (buildAddonEntity installation addonChannelType exactMatch matchingVersion)
    | none =>
      match exactMatch.matched_release.game_versions.head? with
      | none => .error "TypeError: cannot read interface of undefined"
      | some matchingVersion =>
        .ok (buildAddonEntity installation addonChannelType exactMatch matchingVersion)

/-- The body of the first scan loop for one scan result: filter the batch
response by fingerprint, pick the first match declaring the target
variant, else fall back to the first fingerprint match when any exists,
and store the choice in exactMatch. -/
def resolveScanResult (gameType : WowGameType)
    (exactMatches : List WowUpExactMatch)
    (scanResult : AppWowUpScanResult) : AppWowUpScanResult :=
  let fingerprintMatches := exactMatches.filter
    (fun exactMatch => hasMatchingFingerprint scanResult exactMatch.matched_release)
  let clientMatch := fingerprintMatches.find?
    (fun exactMatch => hasGameType exactMatch.matched_release gameType)
  let clientMatch :=
    if clientMatch = none ∧ fingerprintMatches.length > 0 then fingerprintMatches.head?
    else clientMatch
  { scanResult with exactMatch := clientMatch }

/-- The body of the second scan loop for one addon folder: look the scan
result up by path (reading exactMatch of a missing one throws, uncaught),
skip folders without a match, and otherwise build the entity inside the
try block, a caught throw leaving the folder unchanged. -/
def scanFolderStep (installation : WowInstallation)
    (addonChannelType : AddonChannelType)
    (scanResults : List AppWowUpScanResult)
    (addonFolder : AddonFolder) : Except String AddonFolder :=
  match scanResults.find? (fun sr => sr.path == addonFolder.path) with
  | none => .error "TypeError: cannot read exactMatch of undefined"
  | some scanResult =>
    match scanResult.exactMatch with
    | none => .ok addonFolder
    | some _ =>
      match getAddon installation addonChannelType scanResult with
      | .ok newAddon => .ok { addonFolder with matchingAddon := some newAddon }
      | .error _ => .ok addonFolder

/-- scan, after the external scanner produced scanResults and the batched
fingerprint lookup returned fingerprintResponse (both explicit inputs):
run the first loop over all scan results against the one shared response,
then the second loop over the addon folders, yielding their updated list. -/
def scan (installation : WowInstallation)
    (addonChannelType : AddonChannelType)
    (addonFolders : List AddonFolder)
    (scanResults : List AppWowUpScanResult)
    (fingerprintResponse : GetAddonsByFingerprintResponse) :
    Except String (List AddonFolder) :=
  let gameType := getWowGameType installation.clientType
  let resolved := scanResults.map (resolveScanResult gameType fingerprintResponse.exactMatches)
  addonFolders.mapM (scanFolderStep installation addonChannelType resolved)

/-! Concrete fixtures used by the counterexamples and witnesses. -/

/-- A retail installation. -/
def inst1 : WowInstallation := { id := "inst-1", clientType := .Retail }

/-- A game-version entry for the Retail variant. -/
def gvRetail : WowUpGameVersionRepresentation :=
  { game_type := .Retail, version := "2.0.0", interface := "90002",
    title := some "Test Addon", authors := some "Author A" }

/-- A game-version entry for the Classic variant. -/
def gvClassic : WowUpGameVersionRepresentation :=
  { game_type := .Classic, version := "1.13.2", interface := "11302",
    title := some "Classic Addon", authors := some "Author B" }

/-- A prerelease remote release declaring the Retail variant, whose one
declared folder name differs from the local folder name that matches it. -/
def relBeta : WowUpAddonReleaseRepresentation :=
  { id := 10, tag_name := "v2.0.0-beta", prerelease := true,
    published_at := "2021-01-01", download_url := "https://dl/10",
    body := some "notes", game_versions := [gvRetail],
    addonFolders := [{ folder_name := "RemoteFolder", fingerprint := "fp1" }] }

/-- Fingerprint match carrying relBeta. -/
def em1 : WowUpExactMatch :=
  { id := 100, repository := "https://repo/100", repository_name := "Repo100",
    owner_name := "Owner100", image_url := "https://img/100",
    source := "github", funding_links := [], matched_release := relBeta }

/-- Local scan result whose fingerprint matches relBeta. -/
def sr1 : AppWowUpScanResult :=
  { path := "/addons/MyLocalFolder", fingerprint := "fp1",
    folderName := "MyLocalFolder", exactMatch := none }

/-- The local addon folder of sr1. -/
def folder1 : AddonFolder := { path := "/addons/MyLocalFolder", matchingAddon := none }

/-- Fingerprint response containing only em1. -/
def resp1 : GetAddonsByFingerprintResponse := { exactMatches := [em1] }

/-- The entity getAddon builds for sr1 matched to em1 under a Stable
channel preference. -/
def addon1 : Addon := buildAddonEntity inst1 AddonChannelType.Stable em1 gvRetail

/-- A release declaring only the Classic variant, on fingerprint fp2. -/
def relClassicOnly : WowUpAddonReleaseRepresentation :=
  { id := 20, tag_name := "v1.0.0", prerelease := false,
    published_at := "2020-06-01", download_url := "https://dl/20",
    body := none, game_versions := [gvClassic],
    addonFolders := [{ folder_name := "Foo", fingerprint := "fp2" }] }

/-- A release declaring the Retail variant, on fingerprint fp2. -/
def relRetail2 : WowUpAddonReleaseRepresentation :=
  { id := 21, tag_name := "v1.1.0", prerelease := false,
    published_at := "2020-07-01", download_url := "https://dl/21",
    body := none, game_versions := [gvRetail],
    addonFolders := [{ folder_name := "Foo", fingerprint := "fp2" }] }

/-- Fingerprint match carrying relClassicOnly. -/
def emClassic : WowUpExactMatch :=
  { id := 200, repository := "https://repo/200", repository_name := "Repo200",
    owner_name := "Owner200", image_url := "https://img/200",
    source := "github", funding_links := [], matched_release := relClassicOnly }

/-- Fingerprint match carrying relRetail2. -/
def emRetail : WowUpExactMatch :=
  { id := 201, repository := "https://repo/201", repository_name := "Repo201",
    owner_name := "Owner201", image_url := "https://img/201",
    source := "github", funding_links := [], matched_release := relRetail2 }

/-- Local scan result on fingerprint fp2, matching both emClassic and
emRetail. -/
def sr2 : AppWowUpScanResult :=
  { path := "/addons/Foo", fingerprint := "fp2",
    folderName := "Foo", exactMatch := none }

/-- A release declaring no game version at all, on fingerprint fp3. -/
def relNoGv : WowUpAddonReleaseRepresentation :=
  { id := 30, tag_name := "v0.1.0", prerelease := false,
    published_at := "2020-05-05", download_url := "https://dl/30",
    body := none, game_versions := [],
    addonFolders := [{ folder_name := "Bare", fingerprint := "fp3" }] }

/-- Fingerprint match carrying relNoGv. -/
def emNoGv : WowUpExactMatch :=
  { id := 300, repository := "https://repo/300", repository_name := "Repo300",
    owner_name := "Owner300", image_url := "https://img/300",
    source := "github", funding_links := [], matched_release := relNoGv }

/-- Local scan result on fingerprint fp3. -/
def sr3 : AppWowUpScanResult :=
  { path := "/addons/Bare", fingerprint := "fp3",
    folderName := "Bare", exactMatch := none }

/-- The local addon folder of sr2. -/
def folder2 : AddonFolder := { path := "/addons/Foo", matchingAddon := none }

/-- The local addon folder of sr3. -/
def folder3 : AddonFolder := { path := "/addons/Bare", matchingAddon := none }

/-- Fingerprint response containing only emNoGv. -/
def resp3 : GetAddonsByFingerprintResponse := { exactMatches := [emNoGv] }

/-- Fingerprint response for the two-folder batch of the C7 witness. -/
def resp7 : GetAddonsByFingerprintResponse := { exactMatches := [emNoGv, em1] }

/-- Catalog entry with id 1 and no releases. -/
def addonRepA : WowUpAddonRepresentation :=
  { id := 1, repository_name := "RepoA", owner_name := "OwnerA",
    repository := "https://repo/a", image_url := "", owner_image_url := "https://img/a",
    description := none, total_download_count := 5, funding_links := [], releases := [] }

/-- Catalog entry with id 3 and no releases. -/
def addonRepC : WowUpAddonRepresentation :=
  { id := 3, repository_name := "RepoC", owner_name := "OwnerC",
    repository := "https://repo/c", image_url := "", owner_image_url := "https://img/c",
    description := none, total_download_count := 7, funding_links := [], releases := [] }

/-- Batch response returning addons 1 and 3 only. -/
def batchResp : GetAddonBatchResponse := { addons := [addonRepA, addonRepC] }

/-! Helper lemmas shared by the claim theorems. -/

/-- When filtering a list by p keeps exactly one element, find? p returns
that element: the unique satisfier is found wherever it sits. -/
theorem find?_eq_of_filter_eq_singleton {α : Type} {p : α → Bool} {l : List α} {m : α}
    (h : l.filter p = [m]) : l.find? p = some m := by
  induction l with
  | nil => simp at h
  | cons a t ih =>
    rw [List.filter_cons] at h
    by_cases hpa : p a
    · simp only [hpa, if_true, List.cons.injEq] at h
      rw [List.find?_cons_of_pos _ hpa, h.1]
    · simp only [hpa, if_false] at h
      rw [List.find?_cons_of_neg _ hpa]
      exact ih h

/-- The projection getSearchResult keeps the catalog id as externalId. -/
theorem getSearchResult_externalId (representation : WowUpAddonRepresentation)
    (gameType : WowGameType) :
    (getSearchResult representation gameType).externalId = toString representation.id := rfl

/-- buildAddonEntity copies the caller channel preference into the
entity. -/
theorem buildAddonEntity_channelType (installation : WowInstallation)
    (ch : AddonChannelType) (em : WowUpExactMatch)
    (mv : WowUpGameVersionRepresentation) :
    (buildAddonEntity installation ch em mv).channelType = ch := rfl

/-- Any entity getAddon returns is a buildAddonEntity application on the
exactMatch of its scan result. -/
theorem getAddon_ok_iff (installation : WowInstallation) (ch : AddonChannelType)
    (sr : AppWowUpScanResult) (a : Addon)
    (h : getAddon installation ch sr = .ok a) :
    ∃ em mv, sr.exactMatch = some em ∧
      a = buildAddonEntity installation ch em mv := by
  unfold getAddon at h
  split at h
  · exact absurd h (by simp)
  · rename_i em hem
    simp only [] at h
    split at h
    · rename_i mv hmv
      exact ⟨em, mv, hem, ((Except.ok.injEq _ _).mp h).symm⟩
    · split at h
      · exact absurd h (by simp)
      · rename_i mv hhd
        exact ⟨em, mv, hem, ((Except.ok.injEq _ _).mp h).symm⟩

/-! Claim theorems. -/

/-- Claim C1, counterexample: a scan pass over a matched folder whose
matched release is a prerelease, run with a Stable channel preference,
builds an entity whose channel is Stable, not Beta — so the entity channel
is not derived from the prerelease flag of the release. -/
theorem C1_counterexample :
    em1.matched_release.prerelease = true ∧
    (scan inst1 AddonChannelType.Stable [folder1] [sr1] resp1).toOption
      = some [{ folder1 with matchingAddon := some addon1 }] ∧
    addon1.channelType = AddonChannelType.Stable ∧
    AddonChannelType.Stable ≠ AddonChannelType.Beta := by decide

/-- Claim C1, amended: every addon entity built by scan (through getAddon)
carries the caller-supplied channel preference as its channel; the
prerelease flag of the matched release does not determine it. -/
theorem C1_amended_channel_is_preference (installation : WowInstallation)
    (addonChannelType : AddonChannelType) (scanResult : AppWowUpScanResult)
    (a : Addon) (h : getAddon installation addonChannelType scanResult = .ok a) :
    a.channelType = addonChannelType := by
  obtain ⟨em, mv, _, rfl⟩ := getAddon_ok_iff installation addonChannelType scanResult a h
  exact buildAddonEntity_channelType installation addonChannelType em mv

/-- Claim C1, witness: the amended theorem applied to the concrete matched
scan result of the counterexample. -/
theorem C1_witness : addon1.channelType = AddonChannelType.Stable :=
  C1_amended_channel_is_preference inst1 AddonChannelType.Stable
    { sr1 with exactMatch := some em1 } addon1 (by rfl)

/-- Claim C2: among at least two fingerprint matches of a scan result, if
exactly one match declares a game version for the target variant, the
first scan loop stores that match as exactMatch, wherever it sits in the
response list. -/
theorem C2_variant_preference (installation : WowInstallation)
    (exactMatches : List WowUpExactMatch) (scanResult : AppWowUpScanResult)
    (m : WowUpExactMatch)
    (_htwo : 2 ≤ (exactMatches.filter
      (fun em => hasMatchingFingerprint scanResult em.matched_release)).length)
    (huniq : (exactMatches.filter
        (fun em => hasMatchingFingerprint scanResult em.matched_release)).filter
        (fun em => hasGameType em.matched_release (getWowGameType installation.clientType))
      = [m]) :
    (resolveScanResult (getWowGameType installation.clientType) exactMatches scanResult).exactMatch
      = some m := by
  unfold resolveScanResult
  have hfind := find?_eq_of_filter_eq_singleton huniq
  simp only [hfind]
  simp

/-- Claim C2, witness: the match declaring Retail sits second in the
response list and is still the one selected. -/
theorem C2_witness :
    2 ≤ ([emClassic, emRetail].filter
      (fun em => hasMatchingFingerprint sr2 em.matched_release)).length ∧
    (resolveScanResult (getWowGameType inst1.clientType) [emClassic, emRetail] sr2).exactMatch
      = some emRetail :=
  ⟨by decide,
    C2_variant_preference inst1 [emClassic, emRetail] sr2 emRetail (by decide) (by decide)⟩

/-- Claim C9: the client-kind-to-catalog-variant mapping is total, with
ClassicEra to Classic, the classic family to BurningCrusade, and every
other client kind to Retail. -/
theorem C9_variant_mapping : ∀ clientType : WowClientType,
    getWowGameType clientType =
      (if clientType = .ClassicEra then WowGameType.Classic
       else if clientType = .Classic ∨ clientType = .ClassicPtr ∨ clientType = .ClassicBeta
         then WowGameType.BurningCrusade
       else WowGameType.Retail) := by
  intro clientType
  cases clientType <;> rfl

/-- Claim C10: every entity getAddon builds reports its installed version
as its latest version and its installed external release id as its latest
external release id. -/
theorem C10_installed_equals_latest (installation : WowInstallation)
    (addonChannelType : AddonChannelType) (scanResult : AppWowUpScanResult)
    (a : Addon) (h : getAddon installation addonChannelType scanResult = .ok a) :
    a.installedVersion = a.latestVersion ∧
    a.installedExternalReleaseId = a.externalLatestReleaseId := by
  obtain ⟨em, mv, _, rfl⟩ := getAddon_ok_iff installation addonChannelType scanResult a h
  exact ⟨rfl, rfl⟩

/-- Claim C10, witness: the theorem applied to the concrete matched scan
result of the fixtures. -/
theorem C10_witness :
    addon1.installedVersion = addon1.latestVersion ∧
    addon1.installedExternalReleaseId = addon1.externalLatestReleaseId :=
  C10_installed_equals_latest inst1 AddonChannelType.Stable
    { sr1 with exactMatch := some em1 } addon1 (by rfl)

/-- Claim C4, counterexample: the batched fingerprint lookup of scan is
not a cached fetch at any concrete fingerprint set — it has no cache
transaction around it. -/
theorem C4_counterexample :
    isCachedFetch (getAddonsByFingerprintsRoute ["fp1", "fp2"]) = false := rfl

/-- Claim C4, amended: the batched fingerprint lookup goes straight
through the circuit breaker as a POST to the fingerprint endpoint, the
fingerprint list travelling in the request body; it does not pass through
the response cache. -/
theorem C4_amended_direct_fetch (fingerprints : List String) :
    getAddonsByFingerprintsRoute fingerprints
      = FetchRoute.circuitBreakerPost (API_URL ++ "/addons/fingerprint") ∧
    isCachedFetch (getAddonsByFingerprintsRoute fingerprints) = false :=
  ⟨rfl, rfl⟩

/-- Claim C6, counterexample: the scanned local folder is named
MyLocalFolder, yet the entity built for it lists RemoteFolder — the folder
name declared by the matched remote release — as its installed folders, so
the installed-folder list is not the set of local folder names of the
scanned folders. -/
theorem C6_counterexample :
    sr1.folderName = "MyLocalFolder" ∧
    (scan inst1 AddonChannelType.Stable [folder1] [sr1] resp1).toOption
      = some [{ folder1 with matchingAddon := some addon1 }] ∧
    addon1.installedFolderList = ["RemoteFolder"] ∧
    addon1.installedFolders = "RemoteFolder" ∧
    (["RemoteFolder"] : List String) ≠ [sr1.folderName] := by decide

/-- Claim C6, amended: the installed-folder list of every entity getAddon
builds (both the list form and the joined display string) is the list of
folder names declared by the matched release addonFolders in the remote
catalog data, not the local scanned folder names. -/
theorem C6_amended_release_folders (installation : WowInstallation)
    (addonChannelType : AddonChannelType) (scanResult : AppWowUpScanResult)
    (a : Addon) (em : WowUpExactMatch)
    (hem : scanResult.exactMatch = some em)
    (h : getAddon installation addonChannelType scanResult = .ok a) :
    a.installedFolderList
      = em.matched_release.addonFolders.map (fun af => af.folder_name) ∧
    a.installedFolders
      = String.intercalate ", "
        (em.matched_release.addonFolders.map (fun af => af.folder_name)) := by
  obtain ⟨em', mv, hem', rfl⟩ :=
    getAddon_ok_iff installation addonChannelType scanResult a h
  rw [hem] at hem'
  injection hem' with he
  subst he
  exact ⟨rfl, rfl⟩

/-- Claim C6, witness: the amended theorem applied to the concrete matched
scan result of the fixtures. -/
theorem C6_witness :
    addon1.installedFolderList
      = em1.matched_release.addonFolders.map (fun af => af.folder_name) ∧
    addon1.installedFolders
      = String.intercalate ", "
        (em1.matched_release.addonFolders.map (fun af => af.folder_name)) :=
  C6_amended_release_folders inst1 AddonChannelType.Stable
    { sr1 with exactMatch := some em1 } addon1 em1 rfl (by rfl)

/-- Claim C8: getChangelog returns the empty string when the underlying
release lookup fails, and also when the fetched release carries no body
text. -/
theorem C8_changelog_empty_on_failure_or_no_body
    (fetched : Except String WowUpGetAddonReleaseResponse)
    (h : (∃ e, fetched = .error e) ∨
      (∃ response r, fetched = .ok response ∧ response.release = some r ∧ r.body = none)) :
    getChangelog fetched = "" := by
  rcases h with ⟨e, rfl⟩ | ⟨response, r, rfl, hrel, hbody⟩
  · rfl
  · simp [getChangelog, hrel, hbody]

/-- Claim C8, witness: a failed lookup yields the empty string. -/
theorem C8_witness : getChangelog (.error "Timeout") = "" :=
  C8_changelog_empty_on_failure_or_no_body (.error "Timeout")
    (Or.inl ⟨"Timeout", rfl⟩)

/-- Claim C3, counterexample: the fingerprint-match list of sr3 is the
non-empty [emNoGv], no match declares the Retail target, and the first
match is indeed selected as exactMatch — yet the scan pass produces no
entity for the folder, because the selected release declares no game
version and building the entity throws (caught, folder skipped). -/
theorem C3_counterexample :
    resp3.exactMatches.filter
      (fun em => hasMatchingFingerprint sr3 em.matched_release) = [emNoGv] ∧
    hasGameType emNoGv.matched_release (getWowGameType inst1.clientType) = false ∧
    (resolveScanResult (getWowGameType inst1.clientType) resp3.exactMatches sr3).exactMatch
      = some emNoGv ∧
    (scan inst1 AddonChannelType.Stable [folder3] [sr3] resp3).toOption = some [folder3] ∧
    folder3.matchingAddon = none := by decide

/-- Claim C3, amended: when the fingerprint-match list of a scan result is
non-empty and no match declares the target variant, the first match in
list order is selected as exactMatch; and provided that match declares at
least one game version, the second scan loop still produces a resolved
addon entity for the folder (it is not treated as a failure). -/
theorem C3_amended_fallback_first (installation : WowInstallation)
    (ch : AddonChannelType) (exactMatches : List WowUpExactMatch)
    (scanResult : AppWowUpScanResult) (folder : AddonFolder) (m : WowUpExactMatch)
    (hhead : (exactMatches.filter
      (fun em => hasMatchingFingerprint scanResult em.matched_release)).head? = some m)
    (hnone : ∀ em ∈ exactMatches.filter
        (fun em => hasMatchingFingerprint scanResult em.matched_release),
      hasGameType em.matched_release (getWowGameType installation.clientType) = false)
    (hpath : scanResult.path = folder.path)
    (hgv : m.matched_release.game_versions ≠ []) :
    (resolveScanResult (getWowGameType installation.clientType) exactMatches scanResult).exactMatch
      = some m ∧
    ∃ a, scanFolderStep installation ch
        [resolveScanResult (getWowGameType installation.clientType) exactMatches scanResult]
        folder
      = .ok { folder with matchingAddon := some a } := by
  have hfind : (exactMatches.filter
      (fun em => hasMatchingFingerprint scanResult em.matched_release)).find?
      (fun em => hasGameType em.matched_release (getWowGameType installation.clientType))
      = none := by
    rw [List.find?_eq_none]
    intro x hx
    simp [hnone x hx]
  have hlen : 0 < (exactMatches.filter
      (fun em => hasMatchingFingerprint scanResult em.matched_release)).length := by
    cases hc : exactMatches.filter
        (fun em => hasMatchingFingerprint scanResult em.matched_release) with
    | nil => rw [hc] at hhead; simp at hhead
    | cons a t => simp
  have hres : (resolveScanResult (getWowGameType installation.clientType)
      exactMatches scanResult).exactMatch = some m := by
    unfold resolveScanResult
    simp only [hfind]
    simp [hlen, hhead]
  have hm_mem : m ∈ exactMatches.filter
      (fun em => hasMatchingFingerprint scanResult em.matched_release) := by
    cases hc : exactMatches.filter
        (fun em => hasMatchingFingerprint scanResult em.matched_release) with
    | nil => rw [hc] at hhead; simp at hhead
    | cons a t =>
      rw [hc] at hhead
      simp only [List.head?_cons, Option.some.injEq] at hhead
      subst hhead
      simp [hc]
  have hmv : getMatchingVersion m.matched_release (getWowGameType installation.clientType)
      = none := by
    have hgt := hnone m hm_mem
    unfold hasGameType at hgt
    cases hc : getMatchingVersion m.matched_release (getWowGameType installation.clientType) with
    | none => rfl
    | some mv => rw [hc] at hgt; simp at hgt
  obtain ⟨gv, tgv, hgvs⟩ : ∃ gv tgv, m.matched_release.game_versions = gv :: tgv := by
    cases hc : m.matched_release.game_versions with
    | nil => exact absurd hc hgv
    | cons gv tgv => exact ⟨gv, tgv, rfl⟩
  have hga : getAddon installation ch
      (resolveScanResult (getWowGameType installation.clientType) exactMatches scanResult)
      = .ok (buildAddonEntity installation ch m gv) := by
    unfold getAddon
    simp only [hres, hmv, hgvs, List.head?_cons]
  refine ⟨hres, buildAddonEntity installation ch m gv, ?_⟩
  have hbeq : ((resolveScanResult (getWowGameType installation.clientType)
      exactMatches scanResult).path == folder.path) = true := by
    have : (resolveScanResult (getWowGameType installation.clientType)
        exactMatches scanResult).path = scanResult.path := rfl
    rw [this, hpath]
    exact beq_self_eq_true _
  have hfnd : List.find? (fun sr => sr.path == folder.path)
      [resolveScanResult (getWowGameType installation.clientType) exactMatches scanResult]
      = some (resolveScanResult (getWowGameType installation.clientType)
          exactMatches scanResult) := by
    simp [List.find?_cons, hbeq]
  unfold scanFolderStep
  simp only [hfnd, hres, hga]

/-- Searching the mapped search results for an externalId is searching the
returned addons for that id rendered as a string. -/
theorem find?_isNone_map_externalId (gameType : WowGameType) (addonId : String)
    (addons : List WowUpAddonRepresentation) :
    ((addons.map (fun addon => getSearchResult addon gameType)).find?
      (fun sr => sr.externalId == addonId)).isNone
    = (addons.find? (fun addon => toString addon.id == addonId)).isNone := by
  induction addons with
  | nil => rfl
  | cons a t ih =>
    rw [List.map_cons]
    by_cases hpa : (toString a.id == addonId) = true
    · rw [@List.find?_cons_of_pos _ (fun addon => toString addon.id == addonId) a t hpa,
        @List.find?_cons_of_pos _ (fun sr => sr.externalId == addonId)
          (getSearchResult a gameType) _ hpa]
      rfl
    · rw [@List.find?_cons_of_neg _ (fun addon => toString addon.id == addonId) a t hpa,
        @List.find?_cons_of_neg _ (fun sr => sr.externalId == addonId)
          (getSearchResult a gameType) _ hpa]
      exact ih

/-- Claim C5: getAll builds one search result per returned addon and
exactly one SourceRemoved error per requested id whose rendered form
matches no returned addon id; the call returns a result instead of
failing. -/
theorem C5_partial_batch (clientType : WowClientType) (addonIds : List String)
    (response : GetAddonBatchResponse)
    (_hsub : ∀ addon ∈ response.addons, toString addon.id ∈ addonIds) :
    (getAll clientType addonIds response).searchResults
      = response.addons.map (fun addon => getSearchResult addon (getWowGameType clientType)) ∧
    (getAll clientType addonIds response).errors
      = (addonIds.filter (fun addonId =>
          (response.addons.find? (fun addon => toString addon.id == addonId)).isNone)).map
        (fun addonId => ResolutionError.sourceRemoved addonId) := by
  refine ⟨rfl, ?_⟩
  show (addonIds.filter (fun addonId =>
      ((response.addons.map (fun addon => getSearchResult addon (getWowGameType clientType))).find?
        (fun sr => sr.externalId == addonId)).isNone)).map
      (fun addonId => ResolutionError.sourceRemoved addonId) = _
  rw [List.filter_congr
    (fun addonId _ => find?_isNone_map_externalId (getWowGameType clientType) addonId response.addons)]

/-- Claim C5, witness: requesting ids 1, 2, 3 while the remote returns
addons 1 and 3 yields two search results and exactly one SourceRemoved
error, for id 2. -/
theorem C5_witness :
    ((getAll WowClientType.Retail ["1", "2", "3"] batchResp).searchResults
      = batchResp.addons.map
        (fun addon => getSearchResult addon (getWowGameType WowClientType.Retail)) ∧
    (getAll WowClientType.Retail ["1", "2", "3"] batchResp).errors
      = (["1", "2", "3"].filter (fun addonId =>
          (batchResp.addons.find? (fun addon => toString addon.id == addonId)).isNone)).map
        (fun addonId => ResolutionError.sourceRemoved addonId)) ∧
    (getAll WowClientType.Retail ["1", "2", "3"] batchResp).searchResults.length = 2 ∧
    (getAll WowClientType.Retail ["1", "2", "3"] batchResp).errors
      = [ResolutionError.sourceRemoved "2"] :=
  ⟨C5_partial_batch WowClientType.Retail ["1", "2", "3"] batchResp (by decide),
    by decide, by decide⟩

/-- A folder whose path has a scan result never aborts the second scan
loop: its step returns ok, and when getAddon throws for it the folder
comes out unchanged (the exception is caught). -/
theorem scanFolderStep_isOk (installation : WowInstallation)
    (ch : AddonChannelType) (resolved : List AppWowUpScanResult) (f : AddonFolder)
    (hf : (resolved.find? (fun sr => sr.path == f.path)).isSome) :
    ∃ o, scanFolderStep installation ch resolved f = .ok o ∧
      ∀ sr, resolved.find? (fun sr => sr.path == f.path) = some sr →
        (∃ e, getAddon installation ch sr = .error e) → o = f := by
  obtain ⟨sr, hsr⟩ := Option.isSome_iff_exists.mp hf
  unfold scanFolderStep
  simp only [hsr]
  cases hex : sr.exactMatch with
  | none =>
    simp only [hex]
    exact ⟨f, rfl, fun _ _ _ => rfl⟩
  | some em =>
    simp only [hex]
    cases hga : getAddon installation ch sr with
    | ok a =>
      simp only [hga]
      refine ⟨{ f with matchingAddon := some a }, rfl, ?_⟩
      rintro sr' hsr' ⟨e, he⟩
      have hss : sr = sr' := by injection hsr'
      rw [← hss, hga] at he
      exact absurd he (by simp)
    | error e =>
      simp only [hga]
      exact ⟨f, rfl, fun _ _ _ => rfl⟩

/-- The second scan loop over a batch of folders whose paths all have scan
results: it completes with one outcome per folder, each outcome being that
folder's own step. -/
theorem mapM_scanFolderStep_ok (installation : WowInstallation)
    (ch : AddonChannelType) (resolved : List AppWowUpScanResult) :
    ∀ folders : List AddonFolder,
      (∀ f ∈ folders, (resolved.find? (fun sr => sr.path == f.path)).isSome) →
      ∃ out, folders.mapM (scanFolderStep installation ch resolved) = .ok out ∧
        List.Forall₂ (fun f o =>
          scanFolderStep installation ch resolved f = .ok o ∧
          ∀ sr, resolved.find? (fun sr => sr.path == f.path) = some sr →
            (∃ e, getAddon installation ch sr = .error e) → o = f) folders out := by
  intro folders
  induction folders with
  | nil => exact fun _ => ⟨[], rfl, List.Forall₂.nil⟩
  | cons f fs ih =>
    intro hfound
    obtain ⟨o, ho, hp⟩ := scanFolderStep_isOk installation ch resolved f
      (hfound f (List.mem_cons_self f fs))
    obtain ⟨out, hout, hfa⟩ := ih (fun x hx => hfound x (List.mem_cons_of_mem f hx))
    refine ⟨o :: out, ?_, List.Forall₂.cons ⟨ho, hp⟩ hfa⟩
    rw [List.mapM_cons, ho, hout]
    rfl

/-- Claim C7: when every folder in the batch has a scan result, the scan
pass completes without aborting, every folder is processed by its own
per-folder step, and a folder whose entity construction throws comes out
unchanged (exception caught, no entity, siblings unaffected). -/
theorem C7_per_folder_isolation (installation : WowInstallation)
    (addonChannelType : AddonChannelType)
    (scanResults : List AppWowUpScanResult)
    (fingerprintResponse : GetAddonsByFingerprintResponse)
    (addonFolders : List AddonFolder)
    (hfound : ∀ f ∈ addonFolders,
      ((scanResults.map (resolveScanResult (getWowGameType installation.clientType)
          fingerprintResponse.exactMatches)).find?
        (fun sr => sr.path == f.path)).isSome) :
    ∃ out, scan installation addonChannelType addonFolders scanResults fingerprintResponse
        = .ok out ∧
      List.Forall₂ (fun f o =>
        scanFolderStep installation addonChannelType
          (scanResults.map (resolveScanResult (getWowGameType installation.clientType)
            fingerprintResponse.exactMatches)) f = .ok o ∧
        ∀ sr, (scanResults.map (resolveScanResult (getWowGameType installation.clientType)
            fingerprintResponse.exactMatches)).find? (fun sr => sr.path == f.path) = some sr →
          (∃ e, getAddon installation addonChannelType sr = .error e) → o = f)
        addonFolders out :=
  mapM_scanFolderStep_ok installation addonChannelType
    (scanResults.map (resolveScanResult (getWowGameType installation.clientType)
      fingerprintResponse.exactMatches)) addonFolders hfound

/-- Claim C7, witness: a two-folder batch in which the first folder's
entity construction throws (its release declares no game version) and the
second succeeds. -/
theorem C7_witness :
    ∃ out, scan inst1 AddonChannelType.Stable [folder3, folder1] [sr3, sr1] resp7
        = .ok out ∧
      List.Forall₂ (fun f o =>
        scanFolderStep inst1 AddonChannelType.Stable
          ([sr3, sr1].map (resolveScanResult (getWowGameType inst1.clientType)
            resp7.exactMatches)) f = .ok o ∧
        ∀ sr, ([sr3, sr1].map (resolveScanResult (getWowGameType inst1.clientType)
            resp7.exactMatches)).find? (fun sr => sr.path == f.path) = some sr →
          (∃ e, getAddon inst1 AddonChannelType.Stable sr = .error e) → o = f)
        [folder3, folder1] out :=
  C7_per_folder_isolation inst1 AddonChannelType.Stable [sr3, sr1] resp7
    [folder3, folder1] (by decide)

/-- Claim C3, witness: a single classic-only match for a Retail target is
selected by fallback, and an entity is still produced for the folder. -/
theorem C3_witness :
    (resolveScanResult (getWowGameType inst1.clientType) [emClassic] sr2).exactMatch
      = some emClassic ∧
    ∃ a, scanFolderStep inst1 AddonChannelType.Stable
        [resolveScanResult (getWowGameType inst1.clientType) [emClassic] sr2] folder2
      = .ok { folder2 with matchingAddon := some a } :=
  C3_amended_fallback_first inst1 AddonChannelType.Stable [emClassic] sr2 folder2 emClassic
    (by decide) (by decide) (by decide) (by decide)

end WowUp
